import Mathlib

/-!
# Audit entry filter (`audit/entry_filter.go`)

A shallow embedding of `NewEntryFilter` and `(*EntryFilter).Process`.

Modelling conventions

* A Go pointer that may be nil is an `Option`; a multi-value return is a pair.
* A Go `error` is a `GoError` tree: a leaf value, or a value produced by
  `fmt.Errorf` with the `%w` verb that remembers the error it wraps.
* The code calls into packages that are not part of the files at hand
  (`go-bexpr`, `helper/namespace`, `sdk/logical`'s `LogInput`).  Their behaviour is
  a parameter (`Deps`, `Context`), and every call made to them is recorded, in
  order, in the `calls` component of a `Run`, so that "is not invoked" is a
  statement about that list.
* A run-time panic is an explicit `Outcome.panicked`.
* Go strings are byte strings; here they are sequences of Unicode scalar values
  (a malformed byte decodes to U+FFFD, which is not white space).
* The receiver of `Process` and its `context.Context` are taken to be non-nil, and
  the node holds an evaluator, as every node made by `NewEntryFilter` does.
-/

namespace Audit

/-! ## Errors -/

/-- Go error values.  `leaf` is an error that wraps nothing (`errors.New`, or any
value handed over by a collaborator); `wrapped` is the result of `fmt.Errorf`
with one `%w` operand: its rendered message and the operand. -/
inductive GoError where
  | leaf (text : String)
  | wrapped (msg : String) (inner : GoError)
deriving DecidableEq, Repr

/-- The `Error()` method. -/
def GoError.Error : GoError → String
  | .leaf t => t
  | .wrapped m _ => m

/-- The call `fmt.Errorf(pre + "%w", inner)`: the message is the rendered format,
the operand stays reachable through `Unwrap`. -/
def Errorf (pre : String) (inner : GoError) : GoError :=
  .wrapped (pre ++ inner.Error) inner

/-- The function `errors.Unwrap`: the operand of `%w` for an error made by
`fmt.Errorf`, nothing for an error that wraps nothing. -/
def GoError.Unwrap : GoError → Option GoError
  | .leaf _ => none
  | .wrapped _ i => some i

/-- Modelled from the spec: the `AuditError` type with `NewAuditError` and
`SetUpstream` is declared in a file of the package that is not at hand.  The
record keeps what the call sites pass: the operation, the message, the error
kind (§7 "Configuration errors (`ErrFilterParameter`)"), and the upstream
diagnostic attached afterwards. -/
structure AuditError where
  op : String
  msg : String
  kind : GoError
  upstream : Option GoError
deriving DecidableEq, Repr

/-- Modelled from the spec: the constructor `NewAuditError(op, msg, kind)`,
declared outside the files at hand; a fresh error has no upstream diagnostic. -/
def NewAuditError (op msg : String) (kind : GoError) : AuditError :=
  { op := op, msg := msg, kind := kind, upstream := none }

/-- Modelled from the spec: the method `SetUpstream(err)`, declared outside the
files at hand; it attaches the upstream diagnostic and returns the error. -/
def AuditError.SetUpstream (a : AuditError) (err : GoError) : AuditError :=
  { a with upstream := some err }

/-! ## `strings.TrimSpace` -/

/-- The predicate `unicode.IsSpace`: the Latin-1 spaces
`\t \n \v \f \r`, space, U+0085, U+00A0, and the other code points with the
White_Space property. -/
def isSpace (c : Char) : Bool :=
  let n := c.toNat
  (Nat.ble 0x09 n && Nat.ble n 0x0D) || n == 0x20 || n == 0x85 || n == 0xA0 ||
  n == 0x1680 || (Nat.ble 0x2000 n && Nat.ble n 0x200A) || n == 0x2028 ||
  n == 0x2029 || n == 0x202F || n == 0x205F || n == 0x3000

/-- The function `strings.TrimSpace`: all leading and trailing white space removed. -/
def TrimSpace (s : String) : String :=
  ⟨((s.data.dropWhile isSpace).reverse.dropWhile isSpace).reverse⟩

/-! ## Collaborators and data -/

/-- The value `*namespace.Namespace`; only `Path` is read. -/
structure Namespace where
  Path : String
deriving DecidableEq, Repr

/-- What `Process` observes of its `context.Context`: whether the `Done()` channel
is closed when the `select` runs, the value of `Err()`, and the outcome of the
namespace lookup on it. -/
structure Context where
  done : Bool
  err : Option GoError
  ns : Except GoError Namespace

/-- Modelled from the spec: `namespace.FromContext` lives in `helper/namespace`,
which is not at hand; §6 gives its interface
`currentNamespace(context) -> (path, error)`.  The context carries the outcome. -/
def FromContext (ctx : Context) : Except GoError Namespace :=
  ctx.ns

/-- The packages the filter calls into, over an evaluator type `E`
(`*bexpr.Evaluator`), the audit data `L` (`logical.LogInput`) and the filter
datum `D` (`logical.LogInputBexpr`).  `zeroDatum` is the composite literal
`logical.LogInputBexpr{}`; the two sentinel errors are package variables
declared outside the files at hand. -/
structure Deps (E L D : Type) where
  CreateEvaluator : String → Except GoError E
  Evaluate : E → D → Except GoError Bool
  BexprDatum : L → String → D
  zeroDatum : D
  ErrFilterParameter : GoError
  ErrInvalidParameter : GoError

/-- One recorded call to a collaborator. -/
inductive Call (E L D : Type) where
  | CreateEvaluator (expr : String)
  | Evaluate (ev : E) (datum : D)
  | FromContext
  | BexprDatum (data : L) (ns : String)
deriving DecidableEq, Repr

/-- A finished computation: the collaborator calls it made, oldest first, and
what it produced. -/
structure Run (C α : Type) where
  calls : List C
  out : α

/-- How a Go call ends: it returns, or it panics. -/
inductive Outcome (α : Type) where
  | returned (r : α)
  | panicked (why : String)
deriving DecidableEq, Repr

/-- The struct `AuditEvent`; `Process` reads its `Data` pointer only. -/
structure AuditEvent (L : Type) where
  Data : Option L
deriving DecidableEq, Repr

/-- The dynamic value of `Event.Payload` (an `interface{}`) as the type assertion
`e.Payload.(*AuditEvent)` sees it: a `*AuditEvent`, possibly the nil pointer of
that type, or anything else (the nil interface included), named by its type. -/
inductive Payload (L : Type) where
  | auditEvent (p : Option (AuditEvent L))
  | other (dynType : String)
deriving DecidableEq, Repr

/-- The struct `eventlogger.Event`.  `addr` stands for the identity of the
pointer; of the fields only `Payload` is read. -/
structure Event (L : Type) where
  addr : Nat
  Payload : Payload L
deriving DecidableEq, Repr

/-- The struct `EntryFilter`: the evaluator for the expression the node applies. -/
structure EntryFilter (E : Type) where
  evaluator : E
deriving DecidableEq, Repr

variable {E L D : Type}

/-! ## The two functions -/

/-- The constructor `NewEntryFilter` (entry_filter.go, lines 28-51). -/
def NewEntryFilter (env : Deps E L D) (filter : String) :
    Run (Call E L D) (Option (EntryFilter E) × Option AuditError) :=
  let op := "audit.NewEntryFilter"
  let filter := TrimSpace filter
  if filter = "" then
    ⟨[], (none, some (NewAuditError op
      "cannot create new audit filter with empty filter expression" env.ErrFilterParameter))⟩
  else
    match env.CreateEvaluator filter with
    | .error err =>
      ⟨[.CreateEvaluator filter], (none, some ((NewAuditError op
        "cannot create new audit filter" env.ErrFilterParameter).SetUpstream err))⟩
    | .ok eval =>
      let li := env.zeroDatum
      match env.Evaluate eval li with
      | .error err =>
        ⟨[.CreateEvaluator filter, .Evaluate eval li], (none, some ((NewAuditError op
          ("filter references an unsupported field: " ++ filter)
          env.ErrFilterParameter).SetUpstream err))⟩
      | .ok _ =>
        ⟨[.CreateEvaluator filter, .Evaluate eval li], (some { evaluator := eval }, none)⟩

/-- The method `(*EntryFilter).Process` (entry_filter.go, lines 65-107). -/
def Process (env : Deps E L D) (f : EntryFilter E) (ctx : Context) (e : Option (Event L)) :
    Run (Call E L D) (Outcome (Option (Event L) × Option GoError)) :=
  let op := "audit.(EntryFilter).Process"
  if ctx.done then
    ⟨[], .returned (none, ctx.err)⟩
  else
    match e with
    | none =>
      ⟨[], .returned (none, some (Errorf (op ++ ": event is nil: ") env.ErrInvalidParameter))⟩
    | some ev =>
      match ev.Payload with
      | .other _ =>
        ⟨[], .returned (none,
          some (Errorf (op ++ ": cannot parse event payload: ") env.ErrInvalidParameter))⟩
      | .auditEvent none =>
        ⟨[], .panicked "invalid memory address or nil pointer dereference"⟩
      | .auditEvent (some a) =>
        match a.Data with
        | none => ⟨[], .returned (none, none)⟩
        | some data =>
          match FromContext ctx with
          | .error err =>
            ⟨[.FromContext],
              .returned (none, some (Errorf (op ++ ": cannot obtain namespace: ") err))⟩
          | .ok ns =>
            let datum := env.BexprDatum data ns.Path
            match env.Evaluate f.evaluator datum with
            | .error err =>
              ⟨[.FromContext, .BexprDatum data ns.Path, .Evaluate f.evaluator datum],
                .returned (none, some (Errorf (op ++ ": unable to evaluate filter: ") err))⟩
            | .ok result =>
              if result then
                ⟨[.FromContext, .BexprDatum data ns.Path, .Evaluate f.evaluator datum],
                  .returned (some ev, none)⟩
              else
                ⟨[.FromContext, .BexprDatum data ns.Path, .Evaluate f.evaluator datum],
                  .returned (none, none)⟩

/-! ## A concrete instance

A small stand-in for the collaborators, used to run the two functions on
concrete inputs: the evaluator is one of two parsed shapes, the audit data is a
mount path, and the filter datum is a namespace together with a mount path. -/

/-- The parsed expressions of the stand-in compiler. -/
inductive DemoExpr where
  | namespaceIs (v : String)
  | unknownField (name : String)
deriving DecidableEq, Repr

/-- The filter datum of the stand-in. -/
structure DemoDatum where
  Namespace : String
  MountPath : String
deriving DecidableEq, Repr

/-- The stand-in collaborators: two expressions parse, everything else is a
parse error; an expression over an unknown field fails when evaluated. -/
def demoDeps : Deps DemoExpr String DemoDatum where
  CreateEvaluator := fun s =>
    if s = "namespace == ns1" then .ok (.namespaceIs "ns1")
    else if s = "colour == red" then .ok (.unknownField "colour")
    else .error (.leaf "1:1 (0): no match found")
  Evaluate := fun ev d =>
    match ev with
    | .namespaceIs v => .ok (d.Namespace == v)
    | .unknownField n => .error (.leaf ("couldn't find key: " ++ n))
  BexprDatum := fun mount ns => { Namespace := ns, MountPath := mount }
  zeroDatum := { Namespace := "", MountPath := "" }
  ErrFilterParameter := .leaf "invalid filter parameter"
  ErrInvalidParameter := .leaf "invalid internal parameter"

/-- A context that is live and carries the namespace `ns1`. -/
def demoCtx : Context :=
  { done := false, err := none, ns := .ok { Path := "ns1" } }

/-- A context that is live and carries no namespace. -/
def demoCtxNoNs : Context :=
  { done := false, err := none, ns := .error (.leaf "no namespace") }

/-- A context that has been cancelled. -/
def demoCtxCancelled : Context :=
  { done := true, err := some (.leaf "context canceled"), ns := .ok { Path := "ns1" } }

/-- An event carrying audit data. -/
def demoEvent : Event String :=
  { addr := 1, Payload := .auditEvent (some { Data := some "secret/" }) }

/-- An event whose audit payload carries no data. -/
def demoEventNoData : Event String :=
  { addr := 2, Payload := .auditEvent (some { Data := none }) }

/-- An event whose payload is the nil pointer of type `*AuditEvent`. -/
def demoEventNilPayload : Event String :=
  { addr := 3, Payload := .auditEvent none }

/-- An event whose payload has another type. -/
def demoEventOther : Event String :=
  { addr := 4, Payload := .other "string" }

/-- A context that is live and carries the namespace `ns2`. -/
def demoCtxOther : Context :=
  { done := false, err := none, ns := .ok { Path := "ns2" } }

/-- The node the stand-in builds for `namespace == ns1`. -/
def demoFilter : EntryFilter DemoExpr :=
  { evaluator := .namespaceIs "ns1" }

/-- A node whose evaluator fails on every datum. -/
def demoFilterBad : EntryFilter DemoExpr :=
  { evaluator := .unknownField "colour" }

/-! ## Auxiliary facts -/

theorem TrimSpace_eq_empty_iff (s : String) :
    TrimSpace s = "" ↔ ∀ c ∈ s.data, isSpace c = true := by
  unfold TrimSpace
  rw [String.ext_iff]
  show ((s.data.dropWhile isSpace).reverse.dropWhile isSpace).reverse = [] ↔ _
  rw [List.reverse_eq_nil_iff]
  constructor
  · intro h
    rw [List.dropWhile_eq_nil_iff] at h
    by_contra hne
    have hne2 : s.data.dropWhile isSpace ≠ [] := by
      rwa [Ne, List.dropWhile_eq_nil_iff]
    have h1 := List.head_dropWhile_not isSpace s.data hne2
    have h2 := h _ (List.mem_reverse.mpr (List.head_mem hne2))
    rw [h2] at h1
    exact absurd h1 (by decide)
  · intro h
    have h0 : s.data.dropWhile isSpace = [] := List.dropWhile_eq_nil_iff.mpr h
    simp [h0]

/-! ## `NewEntryFilter` -/

/-- C1: a filter string that is empty or holds white space only is rejected: no
node, an error of kind `ErrFilterParameter`, and no call to any collaborator
(the expression compiler in particular). -/
theorem NewEntryFilter_blank (env : Deps E L D) (filter : String)
    (h : ∀ c ∈ filter.data, isSpace c = true) :
    (NewEntryFilter env filter).out.1 = none ∧
    (∃ ae, (NewEntryFilter env filter).out.2 = some ae ∧ ae.kind = env.ErrFilterParameter) ∧
    (NewEntryFilter env filter).calls = [] := by
  have ht : TrimSpace filter = "" := (TrimSpace_eq_empty_iff filter).mpr h
  simp [NewEntryFilter, ht, NewAuditError]

theorem NewEntryFilter_blank_witness :
    (∀ c ∈ "   ".data, isSpace c = true) ∧
    (NewEntryFilter demoDeps "   ").out.1 = none ∧
    (∃ ae, (NewEntryFilter demoDeps "   ").out.2 = some ae ∧
      ae.kind = demoDeps.ErrFilterParameter) ∧
    (NewEntryFilter demoDeps "   ").calls = [] :=
  ⟨by decide, NewEntryFilter_blank demoDeps "   " (by decide)⟩

/-- C2: `NewEntryFilter s` yields a node and no error exactly when the trimmed
text is non-empty, the compiler accepts the trimmed text and the dry run of the
compiled evaluator on the zero-value datum does not fail; otherwise it yields no
node and an error of kind `ErrFilterParameter`; and a node it yields owns the
evaluator compiled from the trimmed text. -/
theorem NewEntryFilter_succeeds_iff (env : Deps E L D) (s : String) :
    ((∃ f, (NewEntryFilter env s).out = (some f, none)) ↔
      (TrimSpace s ≠ "" ∧ ∃ ev, env.CreateEvaluator (TrimSpace s) = .ok ev ∧
        ∃ b, env.Evaluate ev env.zeroDatum = .ok b)) ∧
    ((¬ ∃ f, (NewEntryFilter env s).out = (some f, none)) →
      ∃ ae, (NewEntryFilter env s).out = (none, some ae) ∧
        ae.kind = env.ErrFilterParameter) ∧
    (∀ f, (NewEntryFilter env s).out = (some f, none) →
      env.CreateEvaluator (TrimSpace s) = .ok f.evaluator) := by
  unfold NewEntryFilter
  by_cases ht : TrimSpace s = ""
  · simp [ht, NewAuditError]
  · cases hc : env.CreateEvaluator (TrimSpace s) with
    | error d => simp [ht, hc, NewAuditError, AuditError.SetUpstream]
    | ok ev =>
      cases hd : env.Evaluate ev env.zeroDatum with
      | error d => simp [ht, hc, hd, NewAuditError, AuditError.SetUpstream]
      | ok b =>
        simp only [ht, hc, hd]
        refine ⟨?_, ?_, ?_⟩
        · simp [ht, hc, hd]
        · simp
        · intro f hf
          simp at hf
          simp [← hf]

/-- For a filter whose trimmed text is non-empty, both configuration errors have
kind `ErrFilterParameter` and carry the upstream diagnostic; the error for a
failed dry run has the trimmed filter text in its message, the error for a parse
failure has the fixed message "cannot create new audit filter". -/
theorem NewEntryFilter_error_detail (env : Deps E L D) (s : String)
    (h : TrimSpace s ≠ "") :
    (∀ d, env.CreateEvaluator (TrimSpace s) = .error d →
      (NewEntryFilter env s).out = (none, some
        { op := "audit.NewEntryFilter", msg := "cannot create new audit filter",
          kind := env.ErrFilterParameter, upstream := some d })) ∧
    (∀ ev d, env.CreateEvaluator (TrimSpace s) = .ok ev →
      env.Evaluate ev env.zeroDatum = .error d →
      (NewEntryFilter env s).out = (none, some
        { op := "audit.NewEntryFilter",
          msg := "filter references an unsupported field: " ++ TrimSpace s,
          kind := env.ErrFilterParameter, upstream := some d }) ∧
      (TrimSpace s).data <:+:
        ("filter references an unsupported field: " ++ TrimSpace s).data) := by
  refine ⟨?_, ?_⟩
  · intro d hc
    simp [NewEntryFilter, h, hc, NewAuditError, AuditError.SetUpstream]
  · intro ev d hc hd
    refine ⟨?_, ?_⟩
    · simp [NewEntryFilter, h, hc, hd, NewAuditError, AuditError.SetUpstream]
    · rw [String.data_append]
      exact (List.suffix_append _ _).isInfix

/-- C3 fails on the code: the stand-in compiler cannot parse `namespace ==`, and the
configuration error returned for it carries the parser diagnostic but has the
fixed message "cannot create new audit filter", which does not contain the
filter text; the sibling error for a failed dry run (`colour == red`) does have
the filter text in its message. -/
theorem NewEntryFilter_parse_error_omits_filter :
    TrimSpace "namespace ==" ≠ "" ∧
    (NewEntryFilter demoDeps "namespace ==").out = (none, some
      { op := "audit.NewEntryFilter", msg := "cannot create new audit filter",
        kind := .leaf "invalid filter parameter",
        upstream := some (.leaf "1:1 (0): no match found") }) ∧
    ¬ ("namespace ==".data <:+: "cannot create new audit filter".data) ∧
    (NewEntryFilter demoDeps "colour == red").out = (none, some
      { op := "audit.NewEntryFilter",
        msg := "filter references an unsupported field: colour == red",
        kind := .leaf "invalid filter parameter",
        upstream := some (.leaf "couldn't find key: colour") }) ∧
    "colour == red".data <:+:
      "filter references an unsupported field: colour == red".data :=
  ⟨by decide, rfl, by decide, rfl, by decide⟩

/-- C4: when the context is already cancelled, `Process` returns no event and
exactly the error of the context, whatever the event (nil, wrong payload, no
data, ...), and calls no collaborator: neither the namespace resolver nor the
evaluator. -/
theorem Process_cancelled (env : Deps E L D) (f : EntryFilter E) (ctx : Context)
    (e : Option (Event L)) (h : ctx.done = true) :
    (Process env f ctx e).out = .returned (none, ctx.err) ∧
    (Process env f ctx e).calls = [] := by
  simp [Process, h]

theorem Process_cancelled_witness :
    demoCtxCancelled.done = true ∧
    (Process demoDeps demoFilter demoCtxCancelled (some demoEventNilPayload)).out =
      .returned (none, some (.leaf "context canceled")) ∧
    (Process demoDeps demoFilter demoCtxCancelled (some demoEventNilPayload)).calls = [] :=
  ⟨rfl, Process_cancelled demoDeps demoFilter demoCtxCancelled (some demoEventNilPayload) rfl⟩

/-- C5: on a live context, a nil event and an event whose payload is not a
`*AuditEvent` both give no event and a fresh error made by `fmt.Errorf` with `%w`
around `ErrInvalidParameter` (its message is the prefix of the case followed by
the text of the sentinel, and it unwraps to the sentinel); the result is not
`(nil, nil)` and no collaborator (the evaluator in particular) is called. -/
theorem Process_invalid_input (env : Deps E L D) (f : EntryFilter E) (ctx : Context)
    (e : Option (Event L)) (hctx : ctx.done = false)
    (he : e = none ∨ ∃ ev t, e = some ev ∧ ev.Payload = .other t) :
    (∃ err, (Process env f ctx e).out = .returned (none, some err) ∧
      err = .wrapped
        ((match e with
          | none => "audit.(EntryFilter).Process: event is nil: "
          | some _ => "audit.(EntryFilter).Process: cannot parse event payload: ") ++
          env.ErrInvalidParameter.Error)
        env.ErrInvalidParameter ∧
      err.Unwrap = some env.ErrInvalidParameter) ∧
    (Process env f ctx e).out ≠ .returned (none, none) ∧
    (Process env f ctx e).calls = [] := by
  rcases he with rfl | ⟨ev, t, rfl, hp⟩
  · simp [Process, hctx, Errorf, GoError.Unwrap]
  · simp [Process, hctx, hp, Errorf, GoError.Unwrap]

theorem Process_invalid_input_witness :
    demoCtx.done = false ∧
    (∃ err, (Process demoDeps demoFilter demoCtx (some demoEventOther)).out =
        .returned (none, some err) ∧
      err = .wrapped
        "audit.(EntryFilter).Process: cannot parse event payload: invalid internal parameter"
        (.leaf "invalid internal parameter") ∧
      err.Unwrap = some (.leaf "invalid internal parameter")) ∧
    (Process demoDeps demoFilter demoCtx (some demoEventOther)).out ≠
      .returned (none, none) ∧
    (Process demoDeps demoFilter demoCtx (some demoEventOther)).calls = [] :=
  ⟨rfl, Process_invalid_input demoDeps demoFilter demoCtx (some demoEventOther) rfl
    (Or.inr ⟨demoEventOther, "string", rfl, rfl⟩)⟩

/-- C6: on a live context, an event whose payload is an audit event without data
gives `(nil, nil)` for every node, and no collaborator is called: the namespace
is not resolved (so it need not be resolvable) and the evaluator is not run. -/
theorem Process_no_data (env : Deps E L D) (f : EntryFilter E) (ctx : Context)
    (ev : Event L) (a : AuditEvent L) (hctx : ctx.done = false)
    (hp : ev.Payload = .auditEvent (some a)) (hd : a.Data = none) :
    (Process env f ctx (some ev)).out = .returned (none, none) ∧
    (Process env f ctx (some ev)).calls = [] := by
  simp [Process, hctx, hp, hd]

theorem Process_no_data_witness :
    demoCtxNoNs.done = false ∧
    (Process demoDeps demoFilter demoCtxNoNs (some demoEventNoData)).out =
      .returned (none, none) ∧
    (Process demoDeps demoFilter demoCtxNoNs (some demoEventNoData)).calls = [] :=
  ⟨rfl, Process_no_data demoDeps demoFilter demoCtxNoNs demoEventNoData
    { Data := none } rfl rfl rfl⟩

/-- C7: on a live context with namespace `N` and an event `ev` whose audit payload
has data, `Process` resolves the namespace, projects the datum from the data and
`N.Path`, runs the evaluator of the node on it once, and returns `(ev, nil)` on
true, `(nil, nil)` on false, and on failure no event with a fresh error made by
`fmt.Errorf` with `%w` around the evaluator's error (message
"... unable to evaluate filter: " followed by the text of that error, unwrapping
to that error). -/
theorem Process_decision (env : Deps E L D) (f : EntryFilter E) (ctx : Context)
    (ev : Event L) (a : AuditEvent L) (data : L) (N : Namespace)
    (hctx : ctx.done = false) (hp : ev.Payload = .auditEvent (some a))
    (hd : a.Data = some data) (hns : ctx.ns = .ok N) :
    (Process env f ctx (some ev)).calls =
      [.FromContext, .BexprDatum data N.Path,
        .Evaluate f.evaluator (env.BexprDatum data N.Path)] ∧
    (env.Evaluate f.evaluator (env.BexprDatum data N.Path) = .ok true →
      (Process env f ctx (some ev)).out = .returned (some ev, none)) ∧
    (env.Evaluate f.evaluator (env.BexprDatum data N.Path) = .ok false →
      (Process env f ctx (some ev)).out = .returned (none, none)) ∧
    (∀ err, env.Evaluate f.evaluator (env.BexprDatum data N.Path) = .error err →
      ∃ w, (Process env f ctx (some ev)).out = .returned (none, some w) ∧
        w = .wrapped
          ("audit.(EntryFilter).Process: unable to evaluate filter: " ++ err.Error) err ∧
        w.Unwrap = some err) := by
  cases hev : env.Evaluate f.evaluator (env.BexprDatum data N.Path) with
  | error d =>
    simp [Process, hctx, hp, hd, hns, FromContext, hev, Errorf, GoError.Unwrap]
  | ok b => cases b <;> simp [Process, hctx, hp, hd, hns, FromContext, hev]

theorem Process_decision_witness :
    demoCtx.done = false ∧
    (Process demoDeps demoFilter demoCtx (some demoEvent)).out =
      .returned (some demoEvent, none) ∧
    (Process demoDeps demoFilter demoCtxOther (some demoEvent)).out =
      .returned (none, none) ∧
    (∃ w, (Process demoDeps demoFilterBad demoCtx (some demoEvent)).out =
        .returned (none, some w) ∧
      w = .wrapped
        ("audit.(EntryFilter).Process: unable to evaluate filter: " ++
          GoError.Error (.leaf "couldn't find key: colour"))
        (.leaf "couldn't find key: colour") ∧
      w.Unwrap = some (.leaf "couldn't find key: colour")) :=
  ⟨rfl,
    (Process_decision demoDeps demoFilter demoCtx demoEvent { Data := some "secret/" }
      "secret/" { Path := "ns1" } rfl rfl rfl rfl).2.1 rfl,
    (Process_decision demoDeps demoFilter demoCtxOther demoEvent { Data := some "secret/" }
      "secret/" { Path := "ns2" } rfl rfl rfl rfl).2.2.1 rfl,
    (Process_decision demoDeps demoFilterBad demoCtx demoEvent { Data := some "secret/" }
      "secret/" { Path := "ns1" } rfl rfl rfl rfl).2.2.2 _ rfl⟩

/-- C8: on a live context whose namespace cannot be resolved, an event whose audit
payload has data gives no event and a fresh error made by `fmt.Errorf` with `%w`
around the resolver's error (message "... cannot obtain namespace: " followed by
the text of that error, unwrapping to that error); the only collaborator called
is the resolver, so the evaluator is not run. -/
theorem Process_namespace_error (env : Deps E L D) (f : EntryFilter E) (ctx : Context)
    (ev : Event L) (a : AuditEvent L) (data : L) (err : GoError)
    (hctx : ctx.done = false) (hp : ev.Payload = .auditEvent (some a))
    (hd : a.Data = some data) (hns : ctx.ns = .error err) :
    (∃ w, (Process env f ctx (some ev)).out = .returned (none, some w) ∧
      w = .wrapped
        ("audit.(EntryFilter).Process: cannot obtain namespace: " ++ err.Error) err ∧
      w.Unwrap = some err) ∧
    (Process env f ctx (some ev)).calls = [.FromContext] := by
  simp [Process, hctx, hp, hd, hns, FromContext, Errorf, GoError.Unwrap]

theorem Process_namespace_error_witness :
    demoCtxNoNs.done = false ∧
    (∃ w, (Process demoDeps demoFilter demoCtxNoNs (some demoEvent)).out =
        .returned (none, some w) ∧
      w = .wrapped
        ("audit.(EntryFilter).Process: cannot obtain namespace: " ++
          GoError.Error (.leaf "no namespace"))
        (.leaf "no namespace") ∧
      w.Unwrap = some (.leaf "no namespace")) ∧
    (Process demoDeps demoFilter demoCtxNoNs (some demoEvent)).calls = [.FromContext] :=
  ⟨rfl, Process_namespace_error demoDeps demoFilter demoCtxNoNs demoEvent
    { Data := some "secret/" } "secret/" (.leaf "no namespace") rfl rfl rfl rfl⟩

/-- Every result that `Process` returns has one of three shapes: the event passed
in with no error, no event with no error, or no event with an error.  The inputs
on which it returns nothing are exactly those with a live context and an event
whose payload is the nil `*AuditEvent` pointer, where it panics. -/
theorem Process_result_shape (env : Deps E L D) (f : EntryFilter E) (ctx : Context)
    (e : Option (Event L)) :
    match (Process env f ctx e).out with
    | .returned r =>
      (e ≠ none ∧ r = (e, none)) ∨ r = (none, none) ∨ ∃ err, r = (none, some err)
    | .panicked _ =>
      ctx.done = false ∧ ∃ ev, e = some ev ∧ ev.Payload = .auditEvent none := by
  unfold Process
  cases hdone : ctx.done with
  | true =>
    cases hce : ctx.err <;> simp [hce]
  | false =>
    cases e with
    | none => simp
    | some ev =>
      cases hp : ev.Payload with
      | other t => simp [hp]
      | auditEvent p =>
        cases p with
        | none => simp [hp]
        | some a =>
          cases hd : a.Data with
          | none => simp [hp, hd]
          | some data =>
            cases hns : FromContext ctx with
            | error d => simp [hp, hd, hns]
            | ok N =>
              cases hev : env.Evaluate f.evaluator (env.BexprDatum data N.Path) with
              | error d => simp [hp, hd, hns, hev]
              | ok b => cases b <;> simp [hp, hd, hns, hev]

/-- C9 fails on the code: on a live context, an event whose payload is the nil
`*AuditEvent` pointer makes `Process` panic on the read of `a.Data`, whatever the
node; the call has no result, so its outcome is none of the three shapes. -/
theorem Process_nil_payload_no_result :
    demoCtxNoNs.done = false ∧
    demoEventNilPayload.Payload = .auditEvent none ∧
    (Process demoDeps demoFilterBad demoCtxNoNs (some demoEventNilPayload)).out =
      .panicked "invalid memory address or nil pointer dereference" ∧
    ¬ ∃ r, (Process demoDeps demoFilterBad demoCtxNoNs (some demoEventNilPayload)).out =
      .returned r :=
  ⟨rfl, rfl, rfl, fun ⟨r, h⟩ => by
    have h2 : Outcome.panicked "invalid memory address or nil pointer dereference" =
        Outcome.returned r := h
    cases h2⟩

/-- C10 fails on the code: the node built by `NewEntryFilter` for
`namespace == ns1`, run on a live context with an event whose payload is the nil
`*AuditEvent` pointer, panics on the read of `a.Data` instead of returning. -/
theorem Process_nil_payload_panics :
    (NewEntryFilter demoDeps "namespace == ns1").out = (some demoFilter, none) ∧
    demoEventNilPayload.Payload = .auditEvent none ∧
    (Process demoDeps demoFilter demoCtx (some demoEventNilPayload)).out =
      .panicked "invalid memory address or nil pointer dereference" :=
  ⟨rfl, rfl, rfl⟩

end Audit
